import Mathlib

/-
  Verification development for the Telegram video-to-GIF bot (src/bot.py).

  The source is embedded shallowly:
  * module-level constants become Lean constants;
  * the pure trim/resize policy of convert_video_to_gif (lines 142-149)
    becomes a function on an abstract clip record;
  * the effectful functions (safe_cleanup, run_with_timeout,
    convert_video_to_gif, send_gif_with_fallbacks, handle_video,
    handle_document) become functions from an explicit environment of
    external outcomes (which library calls succeed, what the transport
    returns, byte sizes on disk) to an explicit result record tracking the
    filesystem artifacts, the open decode handles, the attempted delivery
    methods and the user-facing reply.  An exception raised by a Python
    statement is modelled by the corresponding Boolean oracle of the
    environment being false; `except` blocks are modelled by the branch
    structure that mirrors the source's try/except nesting.

  Timing note: convert_video_to_gif contains no await points, so under
  asyncio it either returns or raises to run_with_timeout's wait_for; a
  sequential embedding of the conversion is therefore faithful.  The
  download (download_to_drive) does suspend, and its timeout is modelled
  as an explicit download outcome.
-/

namespace BotSrc

/-! ## Module constants (src/bot.py lines 25-29) -/

def MAX_VIDEO_SIZE_MB : ℕ := 20
def MAX_DURATION_SECONDS : ℕ := 10
def MAX_WIDTH_PX : ℕ := 480
def FPS : ℕ := 15
def TIMEOUT_SECONDS : ℕ := 60

/-- The byte form of the input limit used by the pre-download checks
(lines 295 and 381): MAX_VIDEO_SIZE_MB * 1024 * 1024. -/
def maxInputBytes : ℕ := MAX_VIDEO_SIZE_MB * 1024 * 1024

/-! ## Clip model: the moviepy handle as seen by lines 142-149 -/

/-- A decoded video handle: duration in seconds, frame width and height in
pixels.  Durations and dimensions are modelled as exact rationals. -/
structure Clip where
  duration : ℚ
  width : ℚ
  height : ℚ
deriving DecidableEq, Repr

/-- moviepy's clip.subclip(t0, t1): keeps the interval [t0, t1], so the
resulting duration is t1 - t0; frame geometry is unchanged. -/
def Clip.subclip (c : Clip) (t0 t1 : ℚ) : Clip :=
  { c with duration := t1 - t0 }

/-- moviepy's clip.resize(width=w): uniform scaling by the factor w/width,
applied to both dimensions; duration is unchanged. -/
def Clip.resizeToWidth (c : Clip) (w : ℚ) : Clip :=
  { duration := c.duration, width := w, height := c.height * (w / c.width) }

/-- The trim/resize policy of convert_video_to_gif (src/bot.py lines
142-149): a clip longer than max_duration is subclipped to
[0, max_duration]; then a clip wider than max_width is resized to
max_width. -/
def applyBounds (c : Clip) (maxDuration maxWidth : ℚ) : Clip :=
  let c1 := if c.duration > maxDuration then c.subclip 0 maxDuration else c
  if c1.width > maxWidth then c1.resizeToWidth maxWidth else c1

/-! ## Filesystem model for safe_cleanup (src/bot.py lines 107-117) -/

/-- A filesystem path, as a list of components, so that one path being
inside a directory is the directory's component list being a prefix. -/
abbrev FPath := List String

/-- Kind of a filesystem entry: a regular file or a directory. -/
inductive FKind where
  | file
  | dir
deriving DecidableEq, Repr

instance : Inhabited FKind := ⟨FKind.file⟩

/-- A filesystem: the association of existing paths to their kinds. -/
abbrev FileSys := List (FPath × FKind)

/-- os.path.exists. -/
def pexists (fs : FileSys) (p : FPath) : Bool :=
  fs.any (fun e => e.1 = p)

/-- os.path.isfile. -/
def isfile (fs : FileSys) (p : FPath) : Bool :=
  fs.any (fun e => e.1 = p ∧ e.2 = FKind.file)

/-- os.unlink: removes the entry at the given path. -/
def unlink (fs : FileSys) (p : FPath) : FileSys :=
  fs.filter (fun e => ¬ e.1 = p)

/-- shutil.rmtree: removes the directory and everything under it, that is
every entry whose path has the directory's path as a prefix. -/
def rmtree (fs : FileSys) (p : FPath) : FileSys :=
  fs.filter (fun e => ¬ p.isPrefixOf e.1)

/-- safe_cleanup (src/bot.py lines 107-117).  Iterates over the given
paths; a None path (Python falsy) is skipped; for each present path the
body first checks os.path.exists, then unlinks a file or rmtrees a
directory; the whole per-path body is inside try/except, so a removal
that raises (the path being a member of errs models the OS call raising)
is swallowed and iteration continues with the next path. -/
def safe_cleanup (errs : List FPath) (paths : List (Option FPath)) (fs : FileSys) :
    FileSys :=
  match paths with
  | [] => fs
  | none :: rest => safe_cleanup errs rest fs
  | some p :: rest =>
    let fs' :=
      if pexists fs p then
        if p ∈ errs then fs
        else if isfile fs p then unlink fs p
        else rmtree fs p
      else fs
    safe_cleanup errs rest fs'

/-! ## Timeout model for run_with_timeout (src/bot.py lines 119-124) -/

/-- Outcome of awaiting an operation under asyncio.wait_for. -/
inductive OpOutcome (α : Type) where
  | timedOut
  | completed (a : α)
deriving DecidableEq, Repr

/-- run_with_timeout (src/bot.py lines 119-124), over an abstract awaited
operation that takes `dur` seconds to produce `result`: asyncio.wait_for
raises (re-raised as TimeoutError) exactly when the operation's duration
exceeds the timeout budget, and otherwise yields the operation's own
result. -/
def run_with_timeout {α : Type} (dur : ℕ) (timeout : ℕ) (result : α) :
    OpOutcome α :=
  if dur > timeout then OpOutcome.timedOut else OpOutcome.completed result

/-- Which stage of handle_video's download-then-convert sequence fails by
timeout, if any. -/
inductive StageResult where
  | downloadTimeout
  | convertTimeout
  | finished
deriving DecidableEq, Repr

/-- The timing skeleton of handle_video lines 303-314: the download is run
under run_with_timeout with the full TIMEOUT_SECONDS budget, and then the
conversion is run under run_with_timeout with its own full TIMEOUT_SECONDS
budget; a TimeoutError from either aborts the sequence. -/
def downloadThenConvert (dlDur convDur : ℕ) : StageResult :=
  match run_with_timeout dlDur TIMEOUT_SECONDS () with
  | OpOutcome.timedOut => StageResult.downloadTimeout
  | OpOutcome.completed _ =>
    match run_with_timeout convDur TIMEOUT_SECONDS () with
    | OpOutcome.timedOut => StageResult.convertTimeout
    | OpOutcome.completed _ => StageResult.finished

/-! ## convert_video_to_gif (src/bot.py lines 126-199) -/

/-- The exception leaving convert_video_to_gif, tagged by the statement
that raised it. -/
inductive ConvErr where
  | valueError (msg : String)
  | decodeError
  | trimError
  | resizeError
  | mp4WriteError
  | mp4OpenError
  | gifWriteError
  | fileNotFound (msg : String)
deriving DecidableEq, Repr

/-- Environment of a convert_video_to_gif call: the on-disk size of the
input, the decoded clip's properties, and for each external library call
whether it succeeds.  gifCreated is whether output.gif exists on disk
after write_gif returns without raising; gifSizeBytes is its size then. -/
structure ConvEnv where
  inputSizeBytes : ℕ
  decodeOk : Bool
  clip : Clip
  trimOk : Bool
  resizeOk : Bool
  mp4WriteOk : Bool
  mp4OpenOk : Bool
  gifWriteOk : Bool
  gifCreated : Bool
  gifSizeBytes : ℕ
deriving DecidableEq, Repr

instance exceptDecEq {ε α : Type} [DecidableEq ε] [DecidableEq α] :
    DecidableEq (Except ε α) := fun a b =>
  match a, b with
  | Except.error e, Except.error f =>
    if h : e = f then Decidable.isTrue (by rw [h])
    else Decidable.isFalse (by simp [h])
  | Except.error _, Except.ok _ => Decidable.isFalse (by simp)
  | Except.ok _, Except.error _ => Decidable.isFalse (by simp)
  | Except.ok x, Except.ok y =>
    if h : x = y then Decidable.isTrue (by rw [h])
    else Decidable.isFalse (by simp [h])

/-- Result record of a convert_video_to_gif call: the raised exception or
the returned pair, whether the scratch directory and the gif file still
exist at return, whether VideoFileClip(video_path) was attempted, whether
the two decode handles are still open at return, and the clip value passed
to the encoder. -/
structure ConvOut where
  res : Except ConvErr Unit
  tempDir : Bool
  gifFile : Bool
  decodeAttempted : Bool
  clipOpen : Bool
  mp4ClipOpen : Bool
  encodedClip : Clip
deriving DecidableEq, Repr

/-- The message of the ValueError raised at src/bot.py line 136 (the
f-string's interpolations elided). -/
def convTooLargeMsg : String :=
  "Video file is too large. Maximum size is 20MB."

/-- The message of the FileNotFoundError raised at src/bot.py line 189. -/
def gifMissingMsg : String := "GIF file was not created"

/-- The except branch of convert_video_to_gif (lines 196-199): on any
exception the scratch directory is removed by safe_cleanup([temp_dir]) —
which also removes output.gif inside it — and the exception is re-raised.
The decode handles are exactly as open as they were at the raise point. -/
def convFail (e : ConvErr) (dec o1 o2 : Bool) (enc : Clip) : ConvOut :=
  { res := Except.error e, tempDir := false, gifFile := false,
    decodeAttempted := dec, clipOpen := o1, mp4ClipOpen := o2,
    encodedClip := enc }

/-- convert_video_to_gif (src/bot.py lines 126-199), called with the
default parameters (max_width = MAX_WIDTH_PX, max_duration =
MAX_DURATION_SECONDS, fps = FPS), step by step:
tempfile.mkdtemp (line 128); the on-disk size check against
MAX_VIDEO_SIZE_MB in megabytes (lines 134-136); VideoFileClip (line 139);
the duration trim (lines 142-144); the width resize (lines 147-149);
write_videofile (lines 161-168); VideoFileClip(mp4_path) (line 172);
write_gif (lines 173-178) and from_mp4_clip.close() (line 179);
video_clip.close() (line 185); the output existence check (lines
188-189); the size of output.gif is computed and logged only (lines
192-193); success returns (gif_path, temp_dir) (line 195). -/
def convert_video_to_gif (env : ConvEnv) : ConvOut :=
  if (env.inputSizeBytes : ℚ) / (1024 * 1024) > (MAX_VIDEO_SIZE_MB : ℚ) then
    convFail (ConvErr.valueError convTooLargeMsg) false false false env.clip
  else if env.decodeOk = false then
    convFail ConvErr.decodeError true false false env.clip
  else if env.clip.duration > (MAX_DURATION_SECONDS : ℚ) ∧ env.trimOk = false then
    convFail ConvErr.trimError true true false env.clip
  else if (if env.clip.duration > (MAX_DURATION_SECONDS : ℚ) then
      env.clip.subclip 0 (MAX_DURATION_SECONDS : ℚ) else env.clip).width >
        (MAX_WIDTH_PX : ℚ) ∧ env.resizeOk = false then
    convFail ConvErr.resizeError true true false env.clip
  else if env.mp4WriteOk = false then
    convFail ConvErr.mp4WriteError true true false
      (applyBounds env.clip (MAX_DURATION_SECONDS : ℚ) (MAX_WIDTH_PX : ℚ))
  else if env.mp4OpenOk = false then
    convFail ConvErr.mp4OpenError true true false
      (applyBounds env.clip (MAX_DURATION_SECONDS : ℚ) (MAX_WIDTH_PX : ℚ))
  else if env.gifWriteOk = false then
    convFail ConvErr.gifWriteError true true true
      (applyBounds env.clip (MAX_DURATION_SECONDS : ℚ) (MAX_WIDTH_PX : ℚ))
  else if env.gifCreated = false then
    convFail (ConvErr.fileNotFound gifMissingMsg) true false false
      (applyBounds env.clip (MAX_DURATION_SECONDS : ℚ) (MAX_WIDTH_PX : ℚ))
  else
    { res := Except.ok (), tempDir := true, gifFile := true,
      decodeAttempted := true, clipOpen := false, mp4ClipOpen := false,
      encodedClip :=
        applyBounds env.clip (MAX_DURATION_SECONDS : ℚ) (MAX_WIDTH_PX : ℚ) }

/-! ## send_gif_with_fallbacks (src/bot.py lines 201-275) -/

/-- Outcome of one transport send call (reply_animation or
reply_document): success, an exception that is a size-limit rejection
from the transport, or any other exception. -/
inductive SendRes where
  | success
  | failSize
  | failOther
deriving DecidableEq, Repr, Fintype

/-- Environment of a send_gif_with_fallbacks call: which transport and
library calls succeed, and the outcome of each of the three method send
calls if reached.  edit0Ok is the status edit at line 208; probeOk the
PIL dimension probe (lines 214-216); m1 the reply_animation at line 220;
edit2Ok the status edit at line 234; copyOk the shutil.copy2 at line 238;
m2 the reply_animation at line 241; edit3Ok the status edit at line 252;
m3 the reply_document at line 254; editFailedOk the all-methods-failed
edit at line 265; editOuterOk the edit inside the outer except handler at
line 272. -/
structure SendEnv where
  edit0Ok : Bool
  probeOk : Bool
  m1 : SendRes
  edit2Ok : Bool
  copyOk : Bool
  m2 : SendRes
  edit3Ok : Bool
  m3 : SendRes
  editFailedOk : Bool
  editOuterOk : Bool
deriving DecidableEq, Repr

/-- Result record of a send_gif_with_fallbacks call: either the returned
Boolean or a propagated exception (Except.error), together with the list
of method numbers whose transport send call was actually invoked, in
invocation order. -/
structure SendOut where
  res : Except Unit Bool
  attempts : List ℕ
deriving DecidableEq, Repr

/-- Lines 263-268 and the outer except (lines 270-275): after all three
methods have fallen through, edit the status message to the
all-methods-failed text and return False; if that edit raises, the outer
except handler's own edit runs unprotected — if it succeeds the function
returns False, and if it raises the exception propagates to the caller. -/
def sendAllFailed (env : SendEnv) (att : List ℕ) : SendOut :=
  if env.editFailedOk then { res := Except.ok false, attempts := att }
  else if env.editOuterOk then { res := Except.ok false, attempts := att }
  else { res := Except.error (), attempts := att }

/-- Method 3 (lines 250-261): the status edit and reply_document are
inside one try; any exception falls through to the all-failed path. -/
def sendMethod3 (env : SendEnv) (att : List ℕ) : SendOut :=
  if env.edit3Ok = false then sendAllFailed env att
  else if env.m3 = SendRes.success then
    { res := Except.ok true, attempts := att ++ [3] }
  else sendAllFailed env (att ++ [3])

/-- Method 2 (lines 232-248): the status edit, the copy2 and the
reply_animation are inside one try; any exception falls through to
method 3. -/
def sendMethod2 (env : SendEnv) (att : List ℕ) : SendOut :=
  if env.edit2Ok = false then sendMethod3 env att
  else if env.copyOk = false then sendMethod3 env att
  else if env.m2 = SendRes.success then
    { res := Except.ok true, attempts := att ++ [2] }
  else sendMethod3 env (att ++ [2])

/-- send_gif_with_fallbacks (src/bot.py lines 201-275).  The outer try
spans everything; the initial status edit raising goes straight to the
outer except handler.  Method 1's try (lines 212-230) holds the PIL probe
and the first reply_animation; every `except Exception` clause of the
three methods catches all exceptions alike and control falls to the next
method. -/
def send_gif_with_fallbacks (env : SendEnv) : SendOut :=
  if env.edit0Ok = false then
    if env.editOuterOk then { res := Except.ok false, attempts := [] }
    else { res := Except.error (), attempts := [] }
  else if env.probeOk = false then sendMethod2 env []
  else if env.m1 = SendRes.success then
    { res := Except.ok true, attempts := [1] }
  else sendMethod2 env [1]

/-! ## handle_video (lines 277-361) and handle_document (lines 363-452) -/

/-- Outcome of awaiting the download under run_with_timeout: completed,
timed out (TimeoutError raised by run_with_timeout), or failed with some
other exception. -/
inductive DlRes where
  | ok
  | timeout
  | failed
deriving DecidableEq, Repr

/-- The final user-facing disposition of a request, one per exit path of
the handler: the verbatim text of a ValueError shown by the except
ValueError branch; the timeout apology; the generic conversion apology;
the oversized-GIF message; delivery succeeded (processing message
deleted, a failed delete being swallowed); delivery returned False (the
send function already edited the status message); or, for
handle_document only, the fixed instruction shown for non-video MIME
types. -/
inductive Reply where
  | validation (msg : String)
  | timedOut
  | genericFailure
  | gifTooBig
  | delivered
  | notDelivered
  | instruction
deriving DecidableEq, Repr

/-- Result record of one handler invocation: the reply, whether
download_to_drive was invoked, whether VideoFileClip(video_path) was
attempted, and whether the downloaded input file, the scratch directory
and the gif file exist after the handler returns. -/
structure HVOut where
  reply : Reply
  downloadAttempted : Bool
  decodeAttempted : Bool
  videoFile : Bool
  tempDir : Bool
  gifFile : Bool
deriving DecidableEq, Repr

/-- The message of the ValueError raised by the pre-download declared-size
checks (lines 295-296 and 381-382; the f-string's interpolations
elided). -/
def handlerTooLargeMsg : String :=
  "Video file is too large. Maximum size is 20MB."

/-- Environment of one handle_video invocation: the declared byte size
from the transport metadata, whether get_file succeeds, the download
outcome, the conversion environment, the delivery environment, and
whether the processing-message delete succeeds. -/
structure HandlerEnv where
  declaredSize : ℕ
  getFileOk : Bool
  download : DlRes
  conv : ConvEnv
  send : SendEnv
  deleteOk : Bool
deriving DecidableEq, Repr

/-- Environment of one handle_document invocation: as for handle_video,
plus whether the document's declared MIME type starts with video/. -/
structure HDocEnv where
  isVideoMime : Bool
  declaredSize : ℕ
  getFileOk : Bool
  download : DlRes
  conv : ConvEnv
  send : SendEnv
  deleteOk : Bool
deriving DecidableEq, Repr

/-- The part of the two handlers that runs once the temporary input file
has been created and bound to video_path (lines 303-361 and 392-450,
which are textually identical): the download under run_with_timeout, the
conversion under run_with_timeout (the conversion body has no await
points, so it either returns or raises its own exception), the 50MB
output size check, the delivery call, and the except/finally structure:
except ValueError edits the status message to str(e) verbatim; except
TimeoutError edits it to the timeout apology; except Exception edits it
to the generic apology; finally runs safe_cleanup([video_path,
temp_dir]), where temp_dir is still None unless the conversion returned
successfully. -/
def pipelineFromDownload (download : DlRes) (conv : ConvEnv) (send : SendEnv) :
    HVOut :=
  match download with
  | DlRes.timeout =>
    { reply := Reply.timedOut, downloadAttempted := true,
      decodeAttempted := false, videoFile := false, tempDir := false,
      gifFile := false }
  | DlRes.failed =>
    { reply := Reply.genericFailure, downloadAttempted := true,
      decodeAttempted := false, videoFile := false, tempDir := false,
      gifFile := false }
  | DlRes.ok =>
    let c := convert_video_to_gif conv
    match c.res with
    | Except.error (ConvErr.valueError m) =>
      { reply := Reply.validation m, downloadAttempted := true,
        decodeAttempted := c.decodeAttempted, videoFile := false,
        tempDir := c.tempDir, gifFile := c.gifFile }
    | Except.error _ =>
      { reply := Reply.genericFailure, downloadAttempted := true,
        decodeAttempted := c.decodeAttempted, videoFile := false,
        tempDir := c.tempDir, gifFile := c.gifFile }
    | Except.ok _ =>
      if conv.gifSizeBytes > 50 * 1024 * 1024 then
        { reply := Reply.gifTooBig, downloadAttempted := true,
          decodeAttempted := true, videoFile := false, tempDir := false,
          gifFile := false }
      else
        let s := send_gif_with_fallbacks send
        match s.res with
        | Except.error _ =>
          { reply := Reply.genericFailure, downloadAttempted := true,
            decodeAttempted := true, videoFile := false, tempDir := false,
            gifFile := false }
        | Except.ok true =>
          { reply := Reply.delivered, downloadAttempted := true,
            decodeAttempted := true, videoFile := false, tempDir := false,
            gifFile := false }
        | Except.ok false =>
          { reply := Reply.notDelivered, downloadAttempted := true,
            decodeAttempted := true, videoFile := false, tempDir := false,
            gifFile := false }

/-- handle_video (src/bot.py lines 277-361): get_file (line 292), then the
declared-size check against MAX_VIDEO_SIZE_MB * 1024 * 1024 whose
ValueError (lines 295-296) is raised before the temporary file is created
and before any download, then the shared pipeline. -/
def handle_video (env : HandlerEnv) : HVOut :=
  if env.getFileOk = false then
    { reply := Reply.genericFailure, downloadAttempted := false,
      decodeAttempted := false, videoFile := false, tempDir := false,
      gifFile := false }
  else if env.declaredSize > MAX_VIDEO_SIZE_MB * 1024 * 1024 then
    { reply := Reply.validation handlerTooLargeMsg, downloadAttempted := false,
      decodeAttempted := false, videoFile := false, tempDir := false,
      gifFile := false }
  else
    pipelineFromDownload env.download env.conv env.send

/-- handle_document (src/bot.py lines 363-452): the MIME gate (line 371)
replies with the fixed instruction for non-video documents; for video
MIME types the declared-size check (lines 381-382) runs before get_file
(line 385), then the shared pipeline. -/
def handle_document (env : HDocEnv) : HVOut :=
  if env.isVideoMime = false then
    { reply := Reply.instruction, downloadAttempted := false,
      decodeAttempted := false, videoFile := false, tempDir := false,
      gifFile := false }
  else if env.declaredSize > MAX_VIDEO_SIZE_MB * 1024 * 1024 then
    { reply := Reply.validation handlerTooLargeMsg, downloadAttempted := false,
      decodeAttempted := false, videoFile := false, tempDir := false,
      gifFile := false }
  else if env.getFileOk = false then
    { reply := Reply.genericFailure, downloadAttempted := false,
      decodeAttempted := false, videoFile := false, tempDir := false,
      gifFile := false }
  else
    pipelineFromDownload env.download env.conv env.send

/-! ## Helper lemmas about the trim/resize policy -/

lemma applyBounds_duration_le (c : Clip) (D W : ℚ) :
    (applyBounds c D W).duration ≤ D := by
  obtain ⟨cd, cw, ch⟩ := c
  by_cases hd : cd > D <;> by_cases hw : cw > W <;>
    simp [applyBounds, Clip.subclip, Clip.resizeToWidth, hd, hw] <;> linarith

lemma applyBounds_width_le (c : Clip) (D W : ℚ) :
    (applyBounds c D W).width ≤ W := by
  obtain ⟨cd, cw, ch⟩ := c
  by_cases hd : cd > D <;> by_cases hw : cw > W <;>
    simp [applyBounds, Clip.subclip, Clip.resizeToWidth, hd, hw] <;> linarith

lemma applyBounds_trim (c : Clip) (D W : ℚ) (h : c.duration > D) :
    (applyBounds c D W).duration = D := by
  obtain ⟨cd, cw, ch⟩ := c
  by_cases hw : cw > W <;>
    simp [applyBounds, Clip.subclip, Clip.resizeToWidth, h, hw]

lemma applyBounds_resize (c : Clip) (D W : ℚ) (h0 : 0 < c.width)
    (h : W < c.width) :
    (applyBounds c D W).width = W ∧
    (applyBounds c D W).height * c.width = c.height * W ∧
    (applyBounds c D W).width < c.width := by
  obtain ⟨cd, cw, ch⟩ := c
  simp only at h0 h
  have hw : cw ≠ 0 := ne_of_gt h0
  by_cases hd : cd > D <;>
    simp [applyBounds, Clip.subclip, Clip.resizeToWidth, hd, h] <;>
    field_simp

lemma applyBounds_noop (c : Clip) (D W : ℚ) (hd : c.duration ≤ D)
    (hw : c.width ≤ W) : applyBounds c D W = c := by
  obtain ⟨cd, cw, ch⟩ := c
  simp only at hd hw
  simp [applyBounds, Clip.subclip, Clip.resizeToWidth, not_lt.mpr hd,
    not_lt.mpr hw]

lemma applyBounds_keepWidth (c : Clip) (D W : ℚ) (hw : c.width ≤ W) :
    (applyBounds c D W).width = c.width ∧
    (applyBounds c D W).height = c.height := by
  obtain ⟨cd, cw, ch⟩ := c
  simp only at hw
  by_cases hd : cd > D <;>
    simp [applyBounds, Clip.subclip, Clip.resizeToWidth, hd, not_lt.mpr hw]

/-- On the success path of convert_video_to_gif, the clip handed to the
encoder is exactly the trim/resize policy applied to the decoded clip
with the default bounds. -/
lemma convert_ok_clip (env : ConvEnv)
    (h : (convert_video_to_gif env).res = Except.ok ()) :
    (convert_video_to_gif env).encodedClip =
      applyBounds env.clip (MAX_DURATION_SECONDS : ℚ) (MAX_WIDTH_PX : ℚ) := by
  unfold convert_video_to_gif at h ⊢
  split_ifs at h ⊢ <;> simp_all [convFail]

/-! ## Claim theorems -/

/-- C3: for every input clip that the conversion completes successfully
on, the encoded output's duration is at most max_duration_seconds and its
width is at most max_width_px; an input longer than max_duration_seconds
is hard-cut to its first max_duration_seconds; an input wider than
max_width_px is uniformly scaled down to max_width_px preserving aspect
ratio; and an input at or under either bound is never trimmed or scaled
up. -/
theorem c3_conversion_output_bounds :
    ∀ (env : ConvEnv) (c : Clip) (D W : ℚ),
      ((convert_video_to_gif env).res = Except.ok () →
        (convert_video_to_gif env).encodedClip.duration ≤
          (MAX_DURATION_SECONDS : ℚ) ∧
        (convert_video_to_gif env).encodedClip.width ≤ (MAX_WIDTH_PX : ℚ)) ∧
      ((applyBounds c D W).duration ≤ D ∧ (applyBounds c D W).width ≤ W) ∧
      (c.duration > D → (applyBounds c D W).duration = D) ∧
      (0 < c.width → W < c.width →
        (applyBounds c D W).width = W ∧
        (applyBounds c D W).height * c.width = c.height * W ∧
        (applyBounds c D W).width < c.width) ∧
      (c.width ≤ W →
        (applyBounds c D W).width = c.width ∧
        (applyBounds c D W).height = c.height) ∧
      (c.duration ≤ D → c.width ≤ W → applyBounds c D W = c) := by
  intro env c D W
  refine ⟨?_, ⟨applyBounds_duration_le c D W, applyBounds_width_le c D W⟩,
    applyBounds_trim c D W, applyBounds_resize c D W,
    applyBounds_keepWidth c D W, applyBounds_noop c D W⟩
  intro h
  rw [convert_ok_clip env h]
  exact ⟨applyBounds_duration_le _ _ _, applyBounds_width_le _ _ _⟩

/-- A conversion environment in which every external call succeeds on a
small in-bounds clip: used to exercise positive paths. -/
def convEnvOkSmall : ConvEnv :=
  { inputSizeBytes := 5000000, decodeOk := true, clip := ⟨3, 320, 240⟩,
    trimOk := true, resizeOk := true, mp4WriteOk := true, mp4OpenOk := true,
    gifWriteOk := true, gifCreated := true, gifSizeBytes := 100000 }

/-- Witness for C3: a 15-second, 640x360 clip is cut to 10 seconds and
scaled to 480 wide with the aspect ratio preserved; a 3-second, 320x240
clip passes through unchanged; and a fully successful conversion
environment yields an encoded clip within both bounds. -/
theorem c3_conversion_output_bounds_witness :
    (applyBounds ⟨15, 640, 360⟩ 10 480).duration = 10 ∧
    (applyBounds ⟨15, 640, 360⟩ 10 480).width = 480 ∧
    (applyBounds ⟨15, 640, 360⟩ 10 480).height * 640 = 360 * 480 ∧
    applyBounds ⟨3, 320, 240⟩ 10 480 = ⟨3, 320, 240⟩ ∧
    (convert_video_to_gif convEnvOkSmall).encodedClip.duration ≤
      (MAX_DURATION_SECONDS : ℚ) := by
  refine ⟨(c3_conversion_output_bounds convEnvOkSmall
      ⟨15, 640, 360⟩ 10 480).2.2.1 (by norm_num), ?_, ?_, ?_, ?_⟩
  · exact ((c3_conversion_output_bounds convEnvOkSmall
      ⟨15, 640, 360⟩ 10 480).2.2.2.1 (by norm_num) (by norm_num)).1
  · exact ((c3_conversion_output_bounds convEnvOkSmall
      ⟨15, 640, 360⟩ 10 480).2.2.2.1 (by norm_num) (by norm_num)).2.1
  · exact (c3_conversion_output_bounds convEnvOkSmall
      ⟨3, 320, 240⟩ 10 480).2.2.2.2.2 (by norm_num) (by norm_num)
  · exact ((c3_conversion_output_bounds convEnvOkSmall
      ⟨3, 320, 240⟩ 10 480).1 (by norm_num [convert_video_to_gif,
        convEnvOkSmall, MAX_VIDEO_SIZE_MB, MAX_DURATION_SECONDS,
        MAX_WIDTH_PX])).1

/-- C7: the download and the conversion are each bounded by their own
full TIMEOUT_SECONDS budget, armed independently; the download's duration
does not reduce the conversion's budget, and exceeding either budget
yields the Timeout outcome for that operation alone. -/
theorem c7_independent_timeout_budgets :
    ∀ d d' c : ℕ,
      (downloadThenConvert d c = StageResult.downloadTimeout ↔
        d > TIMEOUT_SECONDS) ∧
      (d ≤ TIMEOUT_SECONDS →
        (downloadThenConvert d c = StageResult.convertTimeout ↔
          c > TIMEOUT_SECONDS)) ∧
      (d ≤ TIMEOUT_SECONDS → d' ≤ TIMEOUT_SECONDS →
        downloadThenConvert d c = downloadThenConvert d' c) ∧
      (d ≤ TIMEOUT_SECONDS → c ≤ TIMEOUT_SECONDS →
        downloadThenConvert d c = StageResult.finished) := by
  intro d d' c
  by_cases hd : d > TIMEOUT_SECONDS <;> by_cases hc : c > TIMEOUT_SECONDS <;>
    by_cases hd' : d' > TIMEOUT_SECONDS <;>
    simp [downloadThenConvert, run_with_timeout, hd, hc, hd'] <;> omega

/-- Witness for C7: a download that consumes the entire budget still
leaves the conversion its full budget, and a conversion one second over
its own budget times out on its own account. -/
theorem c7_independent_timeout_budgets_witness :
    downloadThenConvert TIMEOUT_SECONDS TIMEOUT_SECONDS =
      StageResult.finished ∧
    downloadThenConvert TIMEOUT_SECONDS (TIMEOUT_SECONDS + 1) =
      StageResult.convertTimeout := by
  constructor
  · exact (c7_independent_timeout_budgets TIMEOUT_SECONDS 0
      TIMEOUT_SECONDS).2.2.2 (le_refl _) (le_refl _)
  · exact ((c7_independent_timeout_budgets TIMEOUT_SECONDS 0
      (TIMEOUT_SECONDS + 1)).2.1 (le_refl _)).mpr (by omega)

/-! ## Helper lemmas about safe_cleanup -/

lemma pexists_filter (fs : FileSys) (pr : FPath × FKind → Bool) (p : FPath)
    (h : pexists (fs.filter pr) p = true) : pexists fs p = true := by
  simp only [pexists, List.any_eq_true] at h ⊢
  obtain ⟨e, he, hp⟩ := h
  exact ⟨e, List.mem_of_mem_filter he, hp⟩

lemma pexists_unlink_self (fs : FileSys) (p : FPath) :
    pexists (unlink fs p) p = false := by
  simp [pexists, unlink, List.any_eq_true]

lemma pexists_rmtree_self (fs : FileSys) (p : FPath) :
    pexists (rmtree fs p) p = false := by
  rw [pexists, List.any_eq_false]
  intro e he
  rw [rmtree, List.mem_filter] at he
  have h2 : ¬ (List.isPrefixOf p e.1 = true) := by simpa using he.2
  simp only [decide_eq_true_eq]
  intro hp
  exact h2 (by simp [hp, List.isPrefixOf_iff_prefix])

lemma safe_cleanup_mono (errs : List FPath) :
    ∀ (paths : List (Option FPath)) (fs : FileSys) (p : FPath),
      pexists (safe_cleanup errs paths fs) p = true → pexists fs p = true := by
  intro paths
  induction paths with
  | nil => intro fs p h; simpa [safe_cleanup] using h
  | cons hd rest ih =>
    intro fs p h
    cases hd with
    | none => exact ih fs p h
    | some q =>
      simp only [safe_cleanup] at h
      have h' := ih _ p h
      by_cases hq : pexists fs q = true
      · simp only [hq, if_true] at h'
        by_cases he : q ∈ errs
        · simpa [he] using h'
        · by_cases hf : isfile fs q = true
          · simp only [he, hf, if_true, if_false] at h'
            exact pexists_filter fs _ p h'
          · simp only [he, if_false] at h'
            rw [if_neg (by simpa using hf)] at h'
            exact pexists_filter fs _ p h'
      · rwa [if_neg (by simpa using hq)] at h'

lemma safe_cleanup_removes (errs : List FPath) :
    ∀ (paths : List (Option FPath)) (fs : FileSys) (q : FPath),
      (some q) ∈ paths → q ∉ errs →
      pexists (safe_cleanup errs paths fs) q = false := by
  intro paths
  induction paths with
  | nil => intro fs q hmem; simp at hmem
  | cons hd rest ih =>
    intro fs q hmem herr
    rcases List.mem_cons.mp hmem with heq | hmem'
    · subst heq
      simp only [safe_cleanup]
      set fs' := if pexists fs q then
          (if q ∈ errs then fs
           else if isfile fs q then unlink fs q else rmtree fs q)
        else fs with hfs'
      have hq : pexists fs' q = false := by
        by_cases hex : pexists fs q = true
        · rw [hfs', if_pos hex, if_neg herr]
          by_cases hf : isfile fs q = true
          · rw [if_pos hf]; exact pexists_unlink_self fs q
          · rw [if_neg (by simpa using hf)]; exact pexists_rmtree_self fs q
        · rw [hfs', if_neg (by simpa using hex)]
          simpa using hex
      cases hres : pexists (safe_cleanup errs rest fs') q
      · rfl
      · exact absurd (safe_cleanup_mono errs rest fs' q hres) (by simp [hq])
    · exact by
        cases hd with
        | none => exact ih fs q hmem' herr
        | some p => exact ih _ q hmem' herr

lemma safe_cleanup_noop (errs : List FPath) :
    ∀ (paths : List (Option FPath)) (fs : FileSys),
      (∀ q, (some q) ∈ paths → pexists fs q = false) →
      safe_cleanup errs paths fs = fs := by
  intro paths
  induction paths with
  | nil => intro fs _; rfl
  | cons hd rest ih =>
    intro fs habs
    cases hd with
    | none =>
      exact ih fs fun q hq => habs q (List.mem_cons_of_mem _ hq)
    | some p =>
      have hp : pexists fs p = false := habs p (List.mem_cons_self _ _)
      simp only [safe_cleanup, hp]
      simp only [Bool.false_eq_true, if_false]
      exact ih fs fun q hq => habs q (List.mem_cons_of_mem _ hq)

/-- C8: safe_cleanup is idempotent and safe on partial state: a None path
is skipped; a path that does not exist is left alone (existence is
checked before every removal); every listed path whose removal does not
itself raise no longer exists afterwards, whatever errors other removals
raise (errors never propagate, the function is total and later paths are
still processed); and with no removal errors a second identical call is a
no-op. -/
theorem c8_safe_cleanup_idempotent_safe :
    ∀ (errs : List FPath) (paths : List (Option FPath)) (fs : FileSys)
      (p q : FPath),
      (safe_cleanup errs (none :: paths) fs = safe_cleanup errs paths fs) ∧
      (pexists fs p = false → safe_cleanup errs [some p] fs = fs) ∧
      ((some q) ∈ paths → q ∉ errs →
        pexists (safe_cleanup errs paths fs) q = false) ∧
      (safe_cleanup [] paths (safe_cleanup [] paths fs) =
        safe_cleanup [] paths fs) := by
  intro errs paths fs p q
  refine ⟨rfl, ?_, safe_cleanup_removes errs paths fs q, ?_⟩
  · intro hp
    simp only [safe_cleanup, hp]
    simp only [Bool.false_eq_true, if_false]
  · exact safe_cleanup_noop [] paths _ fun r hr =>
      safe_cleanup_removes [] paths fs r hr (by simp)

/-- Witness for C8: on a filesystem holding an input file and a scratch
directory with a file inside, cleaning the list that also contains a None
entry and an already-missing path removes the file and the whole
directory tree, a repeat call is a no-op, and a removal error on one path
does not prevent the other path from being removed. -/
theorem c8_safe_cleanup_idempotent_safe_witness :
    pexists (safe_cleanup [] [some ["videotmp"], none, some ["scratch"]]
      [(["videotmp"], FKind.file), (["scratch"], FKind.dir),
       (["scratch", "output.gif"], FKind.file)]) ["scratch"] = false ∧
    safe_cleanup [] [some ["gone"]] [(["videotmp"], FKind.file)] =
      [(["videotmp"], FKind.file)] ∧
    pexists (safe_cleanup [["scratch"]]
      [some ["videotmp"], some ["scratch"]]
      [(["videotmp"], FKind.file), (["scratch"], FKind.dir)])
      ["videotmp"] = false := by
  refine ⟨(c8_safe_cleanup_idempotent_safe []
      [some ["videotmp"], none, some ["scratch"]]
      [(["videotmp"], FKind.file), (["scratch"], FKind.dir),
       (["scratch", "output.gif"], FKind.file)] ["gone"]
      ["scratch"]).2.2.1 (by simp) (by simp), ?_, ?_⟩
  · exact (c8_safe_cleanup_idempotent_safe [] [some ["gone"]]
      [(["videotmp"], FKind.file)] ["gone"] ["gone"]).2.1 (by decide)
  · exact (c8_safe_cleanup_idempotent_safe [["scratch"]]
      [some ["videotmp"], some ["scratch"]]
      [(["videotmp"], FKind.file), (["scratch"], FKind.dir)] ["videotmp"]
      ["videotmp"]).2.2.1 (by simp) (by decide)

/-! ## Helper lemmas about conversion cleanup -/

/-- The except branch of convert_video_to_gif (lines 196-199): whenever
the conversion raises, its scratch directory and the gif inside it have
been removed before the exception propagates. -/
lemma convert_error_cleans (env : ConvEnv) (err : ConvErr)
    (h : (convert_video_to_gif env).res = Except.error err) :
    (convert_video_to_gif env).tempDir = false ∧
    (convert_video_to_gif env).gifFile = false := by
  unfold convert_video_to_gif at h ⊢
  split_ifs at h ⊢ <;> simp_all [convFail]

lemma pipeline_cleans (dl : DlRes) (conv : ConvEnv) (send : SendEnv) :
    (pipelineFromDownload dl conv send).videoFile = false ∧
    (pipelineFromDownload dl conv send).tempDir = false ∧
    (pipelineFromDownload dl conv send).gifFile = false := by
  cases dl with
  | timeout => simp [pipelineFromDownload]
  | failed => simp [pipelineFromDownload]
  | ok =>
    unfold pipelineFromDownload
    cases hres : (convert_video_to_gif conv).res with
    | error e =>
      have hc := convert_error_cleans conv e hres
      cases e <;> simp [hres, hc.1, hc.2]
    | ok u =>
      cases u
      by_cases hg : conv.gifSizeBytes > 50 * 1024 * 1024
      · simp [hres, hg]
      · cases hsend : (send_gif_with_fallbacks send).res with
        | error e => simp [hres, hg, hsend]
        | ok b => cases b <;> simp [hres, hg, hsend]

/-- C2: on every exit path of the request handlers — success, validation
failure, download timeout or failure, any conversion error (whose own
except branch removes the scratch directory before re-raising), the
oversized-GIF path, and every delivery outcome including a propagated
delivery exception — the downloaded input file, the scratch directory and
the gif inside it no longer exist after the handler returns. -/
theorem c2_workspace_removed_on_every_exit :
    ∀ (e : HandlerEnv) (d : HDocEnv),
      ((handle_video e).videoFile = false ∧ (handle_video e).tempDir = false ∧
        (handle_video e).gifFile = false) ∧
      ((handle_document d).videoFile = false ∧
        (handle_document d).tempDir = false ∧
        (handle_document d).gifFile = false) := by
  intro e d
  constructor
  · unfold handle_video
    split_ifs <;> first
      | simp
      | exact pipeline_cleans e.download e.conv e.send
  · unfold handle_document
    split_ifs <;> first
      | simp
      | exact pipeline_cleans d.download d.conv d.send

/-- C4: every inbound request whose declared byte size exceeds the input
limit is rejected with the verbatim validation message before any
download of the file's bytes: handle_video never invokes
download_to_drive (whatever the get_file outcome), and handle_document
(whose size check precedes even get_file) likewise never downloads. -/
theorem c4_declared_size_rejected_before_download :
    ∀ (e : HandlerEnv) (d : HDocEnv),
      (e.declaredSize > maxInputBytes →
        (handle_video e).downloadAttempted = false ∧
        (e.getFileOk = true →
          (handle_video e).reply = Reply.validation handlerTooLargeMsg)) ∧
      (d.isVideoMime = true → d.declaredSize > maxInputBytes →
        (handle_document d).downloadAttempted = false ∧
        (handle_document d).reply = Reply.validation handlerTooLargeMsg) := by
  intro e d
  constructor
  · intro hsize
    unfold handle_video
    rcases hgf : e.getFileOk with _ | _
    · simp
    · rw [if_neg (by simp), if_pos (by exact hsize)]
      exact ⟨rfl, fun _ => rfl⟩
  · intro hmime hsize
    unfold handle_document
    rw [if_neg (by simp [hmime]), if_pos (by exact hsize)]
    exact ⟨rfl, rfl⟩

/-- A delivery environment in which every transport call succeeds and the
first method is accepted. -/
def sendEnvAllOk : SendEnv :=
  { edit0Ok := true, probeOk := true, m1 := SendRes.success,
    edit2Ok := true, copyOk := true, m2 := SendRes.success,
    edit3Ok := true, m3 := SendRes.success, editFailedOk := true,
    editOuterOk := true }

/-- A handle_video environment whose declared size is one byte over the
20MB limit. -/
def hvEnvOversizeDeclared : HandlerEnv :=
  { declaredSize := 20 * 1024 * 1024 + 1, getFileOk := true,
    download := DlRes.ok, conv := convEnvOkSmall, send := sendEnvAllOk,
    deleteOk := true }

/-- A handle_document environment (video MIME) whose declared size is one
byte over the 20MB limit. -/
def hdEnvOversizeDeclared : HDocEnv :=
  { isVideoMime := true, declaredSize := 20 * 1024 * 1024 + 1,
    getFileOk := true, download := DlRes.ok, conv := convEnvOkSmall,
    send := sendEnvAllOk, deleteOk := true }

/-- Witness for C4: a 20MB+1 declared size is rejected without download
by both handlers, with the validation reply. -/
theorem c4_declared_size_rejected_before_download_witness :
    ((handle_video hvEnvOversizeDeclared).downloadAttempted = false ∧
      (handle_video hvEnvOversizeDeclared).reply =
        Reply.validation handlerTooLargeMsg) ∧
    ((handle_document hdEnvOversizeDeclared).downloadAttempted = false ∧
      (handle_document hdEnvOversizeDeclared).reply =
        Reply.validation handlerTooLargeMsg) := by
  have h := c4_declared_size_rejected_before_download hvEnvOversizeDeclared
    hdEnvOversizeDeclared
  have h1 := h.1 (by decide)
  have h2 := h.2 rfl (by decide)
  exact ⟨⟨h1.1, h1.2 rfl⟩, h2⟩

/-- C9: after the declared-size pre-download check has passed, the
conversion re-validates the actual on-disk byte size against the same
limit — the source's megabyte comparison getsize/(1024*1024) >
MAX_VIDEO_SIZE_MB holds exactly when the byte count exceeds
MAX_VIDEO_SIZE_MB*1024*1024 — before the decoder is opened, and its
ValueError is surfaced to the requester verbatim by the except ValueError
branch, not as the generic unexpected-error apology. -/
theorem c9_actual_size_revalidated_before_decode :
    ∀ (e : HandlerEnv) (n : ℕ),
      (((n : ℚ) / (1024 * 1024) > (MAX_VIDEO_SIZE_MB : ℚ)) ↔
        n > maxInputBytes) ∧
      (e.getFileOk = true → e.declaredSize ≤ maxInputBytes →
        e.download = DlRes.ok → e.conv.inputSizeBytes > maxInputBytes →
        (handle_video e).reply = Reply.validation convTooLargeMsg ∧
        (handle_video e).decodeAttempted = false ∧
        (handle_video e).reply ≠ Reply.genericFailure) := by
  intro e n
  have hiff : ∀ m : ℕ, (((m : ℚ) / (1024 * 1024) > (MAX_VIDEO_SIZE_MB : ℚ)) ↔
      m > maxInputBytes) := by
    intro m
    rw [gt_iff_lt, lt_div_iff (by norm_num : (0 : ℚ) < 1024 * 1024)]
    rw [show ((MAX_VIDEO_SIZE_MB : ℚ) * (1024 * 1024)) =
      ((maxInputBytes : ℕ) : ℚ) by norm_num [maxInputBytes, MAX_VIDEO_SIZE_MB]]
    exact_mod_cast Iff.rfl
  refine ⟨hiff n, ?_⟩
  intro hgf hdecl hdl hsize
  have hconv : convert_video_to_gif e.conv =
      convFail (ConvErr.valueError convTooLargeMsg) false false false
        e.conv.clip := by
    unfold convert_video_to_gif
    rw [if_pos ((hiff e.conv.inputSizeBytes).mpr hsize)]
  have hd1 : ¬ e.getFileOk = false := by simp [hgf]
  have hd2 : ¬ e.declaredSize > MAX_VIDEO_SIZE_MB * 1024 * 1024 := by
    simpa [maxInputBytes] using not_lt.mpr hdecl
  unfold handle_video
  rw [if_neg hd1, if_neg hd2]
  unfold pipelineFromDownload
  rw [hdl]
  simp [hconv, convFail]

/-- A conversion environment whose on-disk input file is one byte over
the 20MB limit; everything else would succeed. -/
def convEnvOversizeActual : ConvEnv :=
  { inputSizeBytes := 20 * 1024 * 1024 + 1, decodeOk := true,
    clip := ⟨3, 320, 240⟩, trimOk := true, resizeOk := true,
    mp4WriteOk := true, mp4OpenOk := true, gifWriteOk := true,
    gifCreated := true, gifSizeBytes := 100000 }

/-- A handle_video environment that passes the declared-size check but
whose downloaded file is one byte over the limit on disk. -/
def hvEnvOversizeActual : HandlerEnv :=
  { declaredSize := 1000, getFileOk := true, download := DlRes.ok,
    conv := convEnvOversizeActual, send := sendEnvAllOk, deleteOk := true }

/-- Witness for C9: a declared size of 1000 bytes passes the pre-check,
but an actual on-disk size of 20MB+1 makes the conversion raise its
ValueError before decoding, and the handler surfaces that exact message. -/
theorem c9_actual_size_revalidated_before_decode_witness :
    (handle_video hvEnvOversizeActual).reply =
      Reply.validation convTooLargeMsg ∧
    (handle_video hvEnvOversizeActual).decodeAttempted = false := by
  have h := (c9_actual_size_revalidated_before_decode hvEnvOversizeActual
    0).2 rfl (by decide) rfl (by decide)
  exact ⟨h.1, h.2.1⟩

/-- A conversion environment identical to the all-success one except that
the encoder leaves a zero-byte output.gif on disk. -/
def convEnvZeroByteGif : ConvEnv :=
  { inputSizeBytes := 5000000, decodeOk := true, clip := ⟨3, 320, 240⟩,
    trimOk := true, resizeOk := true, mp4WriteOk := true, mp4OpenOk := true,
    gifWriteOk := true, gifCreated := true, gifSizeBytes := 0 }

/-- Counterexample for C5: the post-encode check at src/bot.py line 188
tests only os.path.exists; the size at line 192 is computed for logging
only.  An existing zero-byte output.gif therefore lets the conversion
succeed, contradicting the claim that an existing empty artifact causes a
failure. -/
theorem c5_counterexample_zero_byte_output_accepted :
    (convert_video_to_gif convEnvZeroByteGif).res = Except.ok () ∧
    convEnvZeroByteGif.gifSizeBytes = 0 := by
  constructor
  · norm_num [convert_video_to_gif, convEnvZeroByteGif, MAX_VIDEO_SIZE_MB,
      MAX_DURATION_SECONDS, MAX_WIDTH_PX]
  · rfl

/-- C5 as amended: after invoking the encoder the conversion checks only
that the output artifact exists, raising FileNotFoundError when it is
missing; its byte size is never validated, so when every stage succeeds
the conversion's outcome depends solely on the artifact's existence,
whatever its size. -/
theorem c5_amended_existence_check_only :
    ∀ env : ConvEnv,
      ¬ ((env.inputSizeBytes : ℚ) / (1024 * 1024) > (MAX_VIDEO_SIZE_MB : ℚ)) →
      env.decodeOk = true → env.trimOk = true → env.resizeOk = true →
      env.mp4WriteOk = true → env.mp4OpenOk = true → env.gifWriteOk = true →
      ((convert_video_to_gif env).res = Except.ok () ↔
        env.gifCreated = true) ∧
      (env.gifCreated = false →
        (convert_video_to_gif env).res =
          Except.error (ConvErr.fileNotFound gifMissingMsg)) := by
  intro env h1 h2 h3 h4 h5 h6 h7
  unfold convert_video_to_gif
  rw [if_neg h1]
  cases hg : env.gifCreated <;> simp [h2, h3, h4, h5, h6, h7, hg, convFail]

/-- A conversion environment in which write_gif reports success but no
output.gif exists on disk afterwards. -/
def convEnvGifMissing : ConvEnv :=
  { inputSizeBytes := 5000000, decodeOk := true, clip := ⟨3, 320, 240⟩,
    trimOk := true, resizeOk := true, mp4WriteOk := true, mp4OpenOk := true,
    gifWriteOk := true, gifCreated := false, gifSizeBytes := 0 }

/-- Witness for C5's amended theorem: with every stage succeeding, a
present artifact yields success and a missing artifact yields the
FileNotFoundError. -/
theorem c5_amended_existence_check_only_witness :
    (convert_video_to_gif convEnvZeroByteGif).res = Except.ok () ∧
    (convert_video_to_gif convEnvGifMissing).res =
      Except.error (ConvErr.fileNotFound gifMissingMsg) := by
  constructor
  · exact (c5_amended_existence_check_only convEnvZeroByteGif
      (by norm_num [convEnvZeroByteGif, MAX_VIDEO_SIZE_MB]) rfl rfl rfl rfl
      rfl rfl).1.mpr rfl
  · exact (c5_amended_existence_check_only convEnvGifMissing
      (by norm_num [convEnvGifMissing, MAX_VIDEO_SIZE_MB]) rfl rfl rfl rfl
      rfl rfl).2 rfl

/-- A conversion environment in which write_videofile (the MP4 encode
step, lines 161-168) raises; everything before it succeeds. -/
def convEnvEncodeRaises : ConvEnv :=
  { inputSizeBytes := 5000000, decodeOk := true, clip := ⟨3, 320, 240⟩,
    trimOk := true, resizeOk := true, mp4WriteOk := false, mp4OpenOk := true,
    gifWriteOk := true, gifCreated := true, gifSizeBytes := 100000 }

/-- Counterexample for C6: video_clip.close() sits at line 185, inside the
try and after the encode steps, so when write_videofile raises the
exception propagates via the except branch (which removes the scratch
directory but closes nothing) with the decode handle still open —
contradicting the claim that the handle is closed on every exit path. -/
theorem c6_counterexample_encode_failure_leaves_handle_open :
    (convert_video_to_gif convEnvEncodeRaises).res =
      Except.error ConvErr.mp4WriteError ∧
    (convert_video_to_gif convEnvEncodeRaises).clipOpen = true := by
  constructor <;>
    norm_num [convert_video_to_gif, convEnvEncodeRaises, convFail,
      MAX_VIDEO_SIZE_MB, MAX_DURATION_SECONDS, MAX_WIDTH_PX]

/-- C6 as amended: the decode handle is closed only on the paths that
reach the close call at line 185 — the success path and the
missing-output verification path; when the trim, resize, MP4 write, MP4
reopen, or GIF write step raises, the conversion returns with the decode
handle still open, and a write_gif failure also leaves the re-opened MP4
handle open. -/
theorem c6_amended_decode_handle_close_paths :
    ∀ env : ConvEnv,
      ((convert_video_to_gif env).res = Except.ok () →
        (convert_video_to_gif env).clipOpen = false ∧
        (convert_video_to_gif env).mp4ClipOpen = false) ∧
      (∀ m, (convert_video_to_gif env).res =
          Except.error (ConvErr.fileNotFound m) →
        (convert_video_to_gif env).clipOpen = false ∧
        (convert_video_to_gif env).mp4ClipOpen = false) ∧
      ((convert_video_to_gif env).res = Except.error ConvErr.trimError →
        (convert_video_to_gif env).clipOpen = true) ∧
      ((convert_video_to_gif env).res = Except.error ConvErr.resizeError →
        (convert_video_to_gif env).clipOpen = true) ∧
      ((convert_video_to_gif env).res = Except.error ConvErr.mp4WriteError →
        (convert_video_to_gif env).clipOpen = true) ∧
      ((convert_video_to_gif env).res = Except.error ConvErr.mp4OpenError →
        (convert_video_to_gif env).clipOpen = true) ∧
      ((convert_video_to_gif env).res = Except.error ConvErr.gifWriteError →
        (convert_video_to_gif env).clipOpen = true ∧
        (convert_video_to_gif env).mp4ClipOpen = true) := by
  intro env
  unfold convert_video_to_gif
  split_ifs <;> simp [convFail]

/-- Witness for C6's amended theorem: on a fully successful run the
decode handle is closed, and on an MP4-encode failure it is left open. -/
theorem c6_amended_decode_handle_close_paths_witness :
    (convert_video_to_gif convEnvOkSmall).clipOpen = false ∧
    (convert_video_to_gif convEnvEncodeRaises).clipOpen = true := by
  constructor
  · exact ((c6_amended_decode_handle_close_paths convEnvOkSmall).1
      (by norm_num [convert_video_to_gif, convEnvOkSmall,
        MAX_VIDEO_SIZE_MB, MAX_DURATION_SECONDS, MAX_WIDTH_PX])).1
  · exact (c6_amended_decode_handle_close_paths
      convEnvEncodeRaises).2.2.2.2.1
      (by norm_num [convert_video_to_gif, convEnvEncodeRaises, convFail,
        MAX_VIDEO_SIZE_MB, MAX_DURATION_SECONDS, MAX_WIDTH_PX])

/-! ## Helper lemmas about the delivery fallback chain -/

lemma sendAllFailed_attempts (env : SendEnv) (att : List ℕ) :
    (sendAllFailed env att).attempts = att := by
  unfold sendAllFailed; split_ifs <;> rfl

lemma sendMethod3_attempts (env : SendEnv) (att : List ℕ) :
    (sendMethod3 env att).attempts = att ∨
    (sendMethod3 env att).attempts = att ++ [3] := by
  unfold sendMethod3
  split_ifs <;> simp [sendAllFailed_attempts]

lemma sendMethod2_attempts (env : SendEnv) (att : List ℕ) :
    (sendMethod2 env att).attempts = att ∨
    (sendMethod2 env att).attempts = att ++ [2] ∨
    (sendMethod2 env att).attempts = att ++ [3] ∨
    (sendMethod2 env att).attempts = att ++ [2] ++ [3] := by
  unfold sendMethod2
  split_ifs with h1 h2 h3
  · rcases sendMethod3_attempts env att with h | h <;> simp [h]
  · rcases sendMethod3_attempts env att with h | h <;> simp [h]
  · simp
  · rcases sendMethod3_attempts env (att ++ [2]) with h | h <;> simp [h]

lemma sendAllFailed_not_ok_true (env : SendEnv) (att : List ℕ) :
    (sendAllFailed env att).res ≠ Except.ok true := by
  unfold sendAllFailed; split_ifs <;> simp

lemma sendAllFailed_no_error (env : SendEnv) (att : List ℕ)
    (h : env.editOuterOk = true) :
    (sendAllFailed env att).res ≠ Except.error () := by
  unfold sendAllFailed; split_ifs <;> simp_all

lemma sendMethod3_ok_true (env : SendEnv) (att : List ℕ)
    (h : (sendMethod3 env att).res = Except.ok true) :
    env.m3 = SendRes.success := by
  unfold sendMethod3 at h
  split_ifs at h with h1 h2
  · exact absurd h (sendAllFailed_not_ok_true env att)
  · exact h2
  · exact absurd h (sendAllFailed_not_ok_true env (att ++ [3]))

lemma sendMethod3_no_error (env : SendEnv) (att : List ℕ)
    (h : env.editOuterOk = true) :
    (sendMethod3 env att).res ≠ Except.error () := by
  unfold sendMethod3
  split_ifs with h1 h2
  · exact sendAllFailed_no_error env att h
  · simp
  · exact sendAllFailed_no_error env (att ++ [3]) h

lemma sendMethod2_ok_true (env : SendEnv) (att : List ℕ)
    (h : (sendMethod2 env att).res = Except.ok true) :
    env.m2 = SendRes.success ∨ env.m3 = SendRes.success := by
  unfold sendMethod2 at h
  split_ifs at h with h1 h2 h3
  · exact Or.inr (sendMethod3_ok_true env att h)
  · exact Or.inr (sendMethod3_ok_true env att h)
  · exact Or.inl h3
  · exact Or.inr (sendMethod3_ok_true env (att ++ [2]) h)

lemma sendMethod2_no_error (env : SendEnv) (att : List ℕ)
    (h : env.editOuterOk = true) :
    (sendMethod2 env att).res ≠ Except.error () := by
  unfold sendMethod2
  split_ifs with h1 h2 h3
  · exact sendMethod3_no_error env att h
  · exact sendMethod3_no_error env att h
  · simp
  · exact sendMethod3_no_error env (att ++ [2]) h

lemma send_ok_true_some_method (env : SendEnv)
    (h : (send_gif_with_fallbacks env).res = Except.ok true) :
    env.m1 = SendRes.success ∨ env.m2 = SendRes.success ∨
    env.m3 = SendRes.success := by
  unfold send_gif_with_fallbacks at h
  by_cases h1 : env.edit0Ok = false
  · rw [if_pos h1] at h
    by_cases h2 : env.editOuterOk
    · rw [if_pos h2] at h; simp at h
    · rw [if_neg h2] at h; simp at h
  · rw [if_neg h1] at h
    by_cases h2 : env.probeOk = false
    · rw [if_pos h2] at h
      exact Or.inr (sendMethod2_ok_true env [] h)
    · rw [if_neg h2] at h
      by_cases h3 : env.m1 = SendRes.success
      · exact Or.inl h3
      · rw [if_neg h3] at h
        exact Or.inr (sendMethod2_ok_true env [1] h)

lemma send_no_error (env : SendEnv) (h : env.editOuterOk = true) :
    (send_gif_with_fallbacks env).res ≠ Except.error () := by
  unfold send_gif_with_fallbacks
  by_cases h1 : env.edit0Ok = false
  · rw [if_pos h1, if_pos h]; simp
  · rw [if_neg h1]
    by_cases h2 : env.probeOk = false
    · rw [if_pos h2]; exact sendMethod2_no_error env [] h
    · rw [if_neg h2]
      by_cases h3 : env.m1 = SendRes.success
      · rw [if_pos h3]; simp
      · rw [if_neg h3]; exact sendMethod2_no_error env [1] h

/-- A delivery environment in which method 1's reply_animation raises a
transport size-limit rejection and method 2 succeeds. -/
def sendEnvSizeLimitM1 : SendEnv :=
  { edit0Ok := true, probeOk := true, m1 := SendRes.failSize,
    edit2Ok := true, copyOk := true, m2 := SendRes.success,
    edit3Ok := true, m3 := SendRes.success, editFailedOk := true,
    editOuterOk := true }

/-- Counterexample for C1: the three `except Exception` clauses (lines
229, 247, 260) catch every exception alike — the source contains no
special case for a transport size-limit rejection — so after a size-limit
failure of method 1 the chain still attempts method 2 (attempts = [1, 2])
instead of stopping, contradicting the claim that a size-limit rejection
is terminal. -/
theorem c1_counterexample_size_limit_not_terminal :
    send_gif_with_fallbacks sendEnvSizeLimitM1 =
      { res := Except.ok true, attempts := [1, 2] } ∧
    sendEnvSizeLimitM1.m1 = SendRes.failSize := by
  constructor <;> rfl

/-- C1 as amended: the three delivery methods are attempted strictly in
order, each at most once; when method k's send call raises any exception
— a transport size-limit rejection included — the chain proceeds, and
method k+1's send call is attempted exactly once provided its preparatory
transport calls succeed; no exception kind is terminal before the chain
is exhausted. -/
theorem c1_amended_any_failure_falls_through :
    ∀ env : SendEnv,
      ((send_gif_with_fallbacks env).attempts = [] ∨
        (send_gif_with_fallbacks env).attempts = [1] ∨
        (send_gif_with_fallbacks env).attempts = [2] ∨
        (send_gif_with_fallbacks env).attempts = [3] ∨
        (send_gif_with_fallbacks env).attempts = [1, 2] ∨
        (send_gif_with_fallbacks env).attempts = [1, 3] ∨
        (send_gif_with_fallbacks env).attempts = [2, 3] ∨
        (send_gif_with_fallbacks env).attempts = [1, 2, 3]) ∧
      (env.edit0Ok = true → env.probeOk = true → env.m1 ≠ SendRes.success →
        env.edit2Ok = true → env.copyOk = true →
        (send_gif_with_fallbacks env).attempts.count 2 = 1 ∧
        (send_gif_with_fallbacks env).attempts.take 2 = [1, 2]) ∧
      (env.edit0Ok = true → env.probeOk = true → env.m1 = SendRes.success →
        (send_gif_with_fallbacks env).attempts = [1]) ∧
      (env.edit0Ok = true → env.probeOk = true → env.m1 ≠ SendRes.success →
        env.edit2Ok = true → env.copyOk = true → env.m2 ≠ SendRes.success →
        env.edit3Ok = true →
        (send_gif_with_fallbacks env).attempts = [1, 2, 3]) ∧
      (env.edit0Ok = true → env.probeOk = false → env.edit2Ok = true →
        env.copyOk = true → env.m2 ≠ SendRes.success → env.edit3Ok = true →
        (send_gif_with_fallbacks env).attempts = [2, 3]) := by
  intro env
  refine ⟨?_, ?_, ?_, ?_, ?_⟩
  · unfold send_gif_with_fallbacks
    by_cases h1 : env.edit0Ok = false
    · rw [if_pos h1]
      split_ifs <;> simp
    · rw [if_neg h1]
      by_cases h2 : env.probeOk = false
      · rw [if_pos h2]
        rcases sendMethod2_attempts env [] with h | h | h | h <;> simp [h]
      · rw [if_neg h2]
        by_cases h3 : env.m1 = SendRes.success
        · rw [if_pos h3]; simp
        · rw [if_neg h3]
          rcases sendMethod2_attempts env [1] with h | h | h | h <;> simp [h]
  · intro h0 hp hm1 h2 hcp
    unfold send_gif_with_fallbacks
    rw [if_neg (by simp [h0]), if_neg (by simp [hp]), if_neg hm1]
    unfold sendMethod2
    rw [if_neg (by simp [h2]), if_neg (by simp [hcp])]
    by_cases hm2 : env.m2 = SendRes.success
    · rw [if_pos hm2]
      exact ⟨by decide, by decide⟩
    · rw [if_neg hm2]
      rcases sendMethod3_attempts env ([1] ++ [2]) with h | h <;> rw [h] <;>
        exact ⟨by decide, by decide⟩
  · intro h0 hp hm1
    unfold send_gif_with_fallbacks
    rw [if_neg (by simp [h0]), if_neg (by simp [hp]), if_pos hm1]
  · intro h0 hp hm1 h2 hcp hm2 h3e
    unfold send_gif_with_fallbacks
    rw [if_neg (by simp [h0]), if_neg (by simp [hp]), if_neg hm1]
    unfold sendMethod2
    rw [if_neg (by simp [h2]), if_neg (by simp [hcp]), if_neg hm2]
    unfold sendMethod3
    rw [if_neg (by simp [h3e])]
    by_cases hm3 : env.m3 = SendRes.success
    · rw [if_pos hm3]; rfl
    · rw [if_neg hm3]
      rw [sendAllFailed_attempts env ([1] ++ [2] ++ [3])]
      rfl
  · intro h0 hp h2 hcp hm2 h3e
    unfold send_gif_with_fallbacks
    rw [if_neg (by simp [h0]), if_pos hp]
    unfold sendMethod2
    rw [if_neg (by simp [h2]), if_neg (by simp [hcp]), if_neg hm2]
    unfold sendMethod3
    rw [if_neg (by simp [h3e])]
    by_cases hm3 : env.m3 = SendRes.success
    · rw [if_pos hm3]; rfl
    · rw [if_neg hm3]
      rw [sendAllFailed_attempts env ([] ++ [2] ++ [3])]
      rfl

/-- A delivery environment in which method 1 fails with an ordinary
exception and method 2 succeeds. -/
def sendEnvM1OtherFail : SendEnv :=
  { edit0Ok := true, probeOk := true, m1 := SendRes.failOther,
    edit2Ok := true, copyOk := true, m2 := SendRes.success,
    edit3Ok := true, m3 := SendRes.success, editFailedOk := true,
    editOuterOk := true }

/-- A delivery environment in which method 1 fails with an ordinary
exception and method 2 fails with a size-limit rejection. -/
def sendEnvM1M2Fail : SendEnv :=
  { edit0Ok := true, probeOk := true, m1 := SendRes.failOther,
    edit2Ok := true, copyOk := true, m2 := SendRes.failSize,
    edit3Ok := true, m3 := SendRes.success, editFailedOk := true,
    editOuterOk := true }

/-- Witness for C1's amended theorem: after a non-size failure of method
1, method 2 is attempted exactly once and in order; and when method 2's
send fails as well (here with a size-limit rejection), method 3's send is
attempted too, giving attempts [1, 2, 3]. -/
theorem c1_amended_any_failure_falls_through_witness :
    ((send_gif_with_fallbacks sendEnvM1OtherFail).attempts.count 2 = 1 ∧
      (send_gif_with_fallbacks sendEnvM1OtherFail).attempts.take 2 =
        [1, 2]) ∧
    (send_gif_with_fallbacks sendEnvM1M2Fail).attempts = [1, 2, 3] :=
  ⟨(c1_amended_any_failure_falls_through sendEnvM1OtherFail).2.1 rfl rfl
      (by decide) rfl rfl,
    (c1_amended_any_failure_falls_through sendEnvM1M2Fail).2.2.2.1 rfl rfl
      (by decide) rfl rfl (by decide) rfl⟩

/-- A delivery environment in which the initial status edit raises and
the outer except handler's own status edit raises as well. -/
def sendEnvEditsRaise : SendEnv :=
  { edit0Ok := false, probeOk := true, m1 := SendRes.success,
    edit2Ok := true, copyOk := true, m2 := SendRes.success,
    edit3Ok := true, m3 := SendRes.success, editFailedOk := true,
    editOuterOk := false }

/-- Counterexample for C10: the edit_text inside the outer except handler
(line 272) is not itself protected, so when an exception escapes the
method attempts (here the initial status edit at line 208 raises) and
that edit raises too, send_gif_with_fallbacks propagates the exception to
its caller instead of returning a Boolean. -/
theorem c10_counterexample_exception_propagates :
    (send_gif_with_fallbacks sendEnvEditsRaise).res = Except.error () := rfl

/-- C10 as amended: send_gif_with_fallbacks returns True only when one of
the three send calls succeeded and never returns True when all of them
fail; it never propagates an exception provided the status edit in its
outer except handler succeeds — only when that last edit itself raises
does an exception escape to the caller. -/
theorem c10_amended_totality_boundary :
    ∀ env : SendEnv,
      (env.editOuterOk = true →
        (send_gif_with_fallbacks env).res ≠ Except.error ()) ∧
      ((send_gif_with_fallbacks env).res = Except.ok true →
        env.m1 = SendRes.success ∨ env.m2 = SendRes.success ∨
        env.m3 = SendRes.success) ∧
      (env.m1 ≠ SendRes.success → env.m2 ≠ SendRes.success →
        env.m3 ≠ SendRes.success →
        (send_gif_with_fallbacks env).res ≠ Except.ok true) := by
  intro env
  refine ⟨fun h => send_no_error env h,
    fun h => send_ok_true_some_method env h, ?_⟩
  intro h1 h2 h3 hres
  rcases send_ok_true_some_method env hres with h | h | h
  · exact h1 h
  · exact h2 h
  · exact h3 h

/-- Witness for C10's amended theorem: with a working outer-handler edit
no exception escapes, and with no method succeeding the result is not
True. -/
theorem c10_amended_totality_boundary_witness :
    (send_gif_with_fallbacks sendEnvAllOk).res ≠ Except.error () :=
  (c10_amended_totality_boundary sendEnvAllOk).1 rfl

end BotSrc
